import Mathlib

/-!
Verification of the evaluation-resolution engine of the
`hydra-shields-io-endpoint` service (`src/main.rs`).

The engine queries a Hydra CI server, walks each matching jobset's
evaluation history to find the most recent settled evaluation whose
builds match a job glob, and aggregates the per-jobset verdicts into a
single passing/failing badge response.

The shallow embedding below models every network fetch as a lookup in a
deterministic fetch environment (`Env`): `reqwest` calls and the `moka`
caches in front of them return the same value a fresh fetch would, so a
cache is observationally a memo table and is transparent in the model.
Fallible Rust code (`Result<_, EndpointError>` with `?`) becomes
`Except EndpointError _` with explicit matches.
-/

set_option autoImplicit false

namespace HydraShields

/-- Rust `struct Build` from `src/main.rs`: decoded body of `GET build/:id`.
`i32` fields are modelled as `Int`. -/
structure Build where
  job : String
  finished : Int
  buildstatus : Int
deriving DecidableEq

/-- Rust `struct JobsetEvaluation` from `src/main.rs`: one evaluation, a list of
build ids. -/
structure JobsetEvaluation where
  builds : List Int
deriving DecidableEq

/-- Rust `struct JobsetEvalList` from `src/main.rs`: decoded body of
`GET jobset/:project/:jobset/evals`; index 0 is the most recent evaluation. -/
structure JobsetEvalList where
  evals : List JobsetEvaluation
deriving DecidableEq

/-- Rust `struct Project` from `src/main.rs`: one entry of the project list
returned by `GET hydra_base_url`. -/
structure Project where
  name : String
  jobsets : List String
deriving DecidableEq

/-- Rust `struct Jobset` from `src/main.rs`: a (project, jobset-name) identity. -/
structure Jobset where
  project : String
  name : String
deriving DecidableEq

/-- Rust `impl ToString for Jobset`: the `"project:name"` display/matching form. -/
def Jobset.toString (j : Jobset) : String :=
  j.project ++ ":" ++ j.name

/-- Rust `enum EndpointError` from `src/main.rs`. The wrapped foreign error values
(`url::ParseError`, `reqwest::Error`) are opaque here; we keep only their
display strings, which is all the endpoint ever reads from them. -/
inductive EndpointError where
  | urlParse (msg : String)
  | urlParseArc (msg : String)
  | failedReqwestArc (msg : String)
deriving DecidableEq

/-- Rust `struct EndpointResponse` from `src/main.rs`, with the field defaults of
its `impl Default` (`schema_version = 1`, `is_error = false`). -/
structure EndpointResponse where
  schema_version : Int := 1
  label : String := "Default Label"
  message : String := "Default Message"
  is_error : Bool := false
deriving DecidableEq

/-- The deterministic fetch environment for one request: the remote Hydra
server as seen through `fetch_projects` (the inline project fetch in
`endpoint`), `fetch_jobset_eval_list` and `fetch_build`, each behind its
`moka` cache. The base URL is fixed for the request and folded into the
environment; a cache over a deterministic fetch returns the fetched value,
so the caches are transparent here. -/
structure Env where
  fetchProjects : Except EndpointError (List Project)
  fetchEvalList : Jobset → Except EndpointError JobsetEvalList
  fetchBuild : Int → Except EndpointError Build

/-- The build fan-out of `check_jobset_evaluation` (`src/main.rs:190-203`):
map every build id of the evaluation through the build cache / `fetch_build`,
then collect the results into `Result<Vec<Build>, _>`, propagating a failure. -/
def collect_builds (env : Env) : List Int → Except EndpointError (List Build)
  | [] => .ok []
  | b :: rest =>
    match env.fetchBuild b with
    | .error e => .error e
    | .ok bu =>
      match collect_builds env rest with
      | .error e => .error e
      | .ok bus => .ok (bu :: bus)

/-- The builds of `statuses` whose job name matches the job matcher: the
`filtered` local of `check_jobset_evaluation` (`src/main.rs:204-207`). -/
def matched (job_matcher : String → Bool) (statuses : List Build) : List Build :=
  statuses.filter fun b => job_matcher b.job

/-- Translation of `check_jobset_evaluation` (`src/main.rs:183-217`): fetch the evaluation's
builds, filter them by the job matcher; if none match, return
`(queued := false, failure := true)`; otherwise `queued` is whether some
matched build has `finished != 1` and `failure` whether some matched build
has `buildstatus != 0`. -/
def check_jobset_evaluation (env : Env) (job_matcher : String → Bool)
    (evaluation : JobsetEvaluation) : Except EndpointError (Bool × Bool) :=
  match collect_builds env evaluation.builds with
  | .error e => .error e
  | .ok statuses =>
    let filtered := matched job_matcher statuses
    if filtered.isEmpty then
      .ok (false, true)
    else
      .ok (filtered.any fun x => x.finished != 1,
           filtered.any fun x => x.buildstatus != 0)

/-- Translation of `check_list_passing` (`src/main.rs:219-242`) on the `evals` list: scan
evaluations in order; a queued evaluation is skipped, the first non-queued
one decides `Ok(!failure)`; an exhausted list yields `Ok(false)`. -/
def check_list_passing (env : Env) (job_matcher : String → Bool) :
    List JobsetEvaluation → Except EndpointError Bool
  | [] => .ok false
  | evaluation :: rest =>
    match check_jobset_evaluation env job_matcher evaluation with
    | .error e => .error e
    | .ok (queued, failure) =>
      if queued then check_list_passing env job_matcher rest
      else .ok (!failure)

/-- The `jobsets` pipeline of `endpoint` (`src/main.rs:263-271`): every
`(project, jobset-name)` pair of the project list, kept when its
`"project:name"` string matches the jobset matcher. -/
def derived_jobsets (projects : List Project) (jobset_matcher : String → Bool) :
    List Jobset :=
  ((projects.map fun p => p.jobsets.map fun js =>
      { project := p.name, name := js : Jobset }).flatten).filter
    fun x => jobset_matcher x.toString

/-- The eval-list fan-out of `endpoint` (`src/main.rs:272-285`): fetch every
surviving jobset's evaluation history and collect into `Result<Vec<_>, _>`. -/
def collect_eval_lists (env : Env) :
    List Jobset → Except EndpointError (List JobsetEvalList)
  | [] => .ok []
  | j :: rest =>
    match env.fetchEvalList j with
    | .error e => .error e
    | .ok l =>
      match collect_eval_lists env rest with
      | .error e => .error e
      | .ok ls => .ok (l :: ls)

/-- The resolver fan-out of `endpoint` (`src/main.rs:287-300`): run
`check_list_passing` on every fetched evaluation history and collect into
`Result<Vec<bool>, _>`. -/
def collect_passing (env : Env) (job_matcher : String → Bool) :
    List JobsetEvalList → Except EndpointError (List Bool)
  | [] => .ok []
  | l :: rest =>
    match check_list_passing env job_matcher l.evals with
    | .error e => .error e
    | .ok b =>
      match collect_passing env job_matcher rest with
      | .error e => .error e
      | .ok bs => .ok (b :: bs)

/-- Translation of `endpoint` (`src/main.rs:244-316`): the full aggregation. The two glob
parameters appear twice, as their display strings (used for the label) and
as their compiled matchers; `format!("{}:{}", params.jobsets, params.jobs)`
prints the original glob patterns. -/
def endpoint (env : Env) (jobsets_glob jobs_glob : String)
    (jobset_matcher job_matcher : String → Bool) :
    Except EndpointError EndpointResponse :=
  match env.fetchProjects with
  | .error e => .error e
  | .ok projects =>
    let jobsets := derived_jobsets projects jobset_matcher
    match collect_eval_lists env jobsets with
    | .error e => .error e
    | .ok jobset_eval_lists =>
      match collect_passing env job_matcher jobset_eval_lists with
      | .error e => .error e
      | .ok passing =>
        if passing.all fun b => b then
          .ok { label := jobsets_glob ++ ":" ++ jobs_glob,
                message := "passing" }
        else
          .ok { label := jobsets_glob ++ ":" ++ jobs_glob,
                message := "one or more jobs failing",
                is_error := true }

/-- Fuel-indexed worker for [[globMatch]]; every recursive call shrinks
`pattern.length + text.length`, so fuel `pattern.length + text.length + 1`
never runs out. -/
def globMatchAux : Nat → List Char → List Char → Bool
  | 0, _, _ => false
  | _ + 1, [], [] => true
  | _ + 1, [], _ :: _ => false
  | fuel + 1, '*' :: ps, [] => globMatchAux fuel ps []
  | fuel + 1, '*' :: ps, c :: cs =>
    globMatchAux fuel ps (c :: cs) || globMatchAux fuel ('*' :: ps) cs
  | _ + 1, _ :: _, [] => false
  | fuel + 1, p :: ps, c :: cs => (p == c) && globMatchAux fuel ps cs

/-- Modelled from the spec: the Pattern Matcher (§4.2) compiles glob patterns
through the external `globset` crate, which is not part of this repository's
sources. `*` matches any (possibly empty) character sequence and every other
character matches itself — faithful to `globset` for patterns without path
separators, `?`, or character classes, which covers every pattern in the
spec's examples. -/
def globMatch (pattern text : List Char) : Bool :=
  globMatchAux (pattern.length + text.length + 1) pattern text

/-- Glob matching on strings: `Glob::compile_matcher` plus
`GlobMatcher::is_match`, via [[globMatch]]. -/
def globMatchStr (pattern text : String) : Bool :=
  globMatch pattern.toList text.toList

deriving instance DecidableEq for Except

/-! ### Concrete fetch environments used by witnesses and counterexamples -/

/-- The spec's end-to-end example server: one project `myproj` with jobset
`trunk`, one evaluation holding build 1, and build 1 =
`{job: "build", finished: 1, buildstatus: 0}`. Every other fetch fails. -/
def envE2E : Env where
  fetchProjects := .ok [⟨"myproj", ["trunk"]⟩]
  fetchEvalList := fun j =>
    if j = ⟨"myproj", "trunk"⟩ then .ok ⟨[⟨[1]⟩]⟩
    else .error (.failedReqwestArc "404")
  fetchBuild := fun b =>
    if b = 1 then .ok ⟨"build", 1, 0⟩ else .error (.failedReqwestArc "404")

/-- The end-to-end example server with build 1 failed
(`buildstatus: 1`). -/
def envE2EFail : Env where
  fetchProjects := .ok [⟨"myproj", ["trunk"]⟩]
  fetchEvalList := fun j =>
    if j = ⟨"myproj", "trunk"⟩ then .ok ⟨[⟨[1]⟩]⟩
    else .error (.failedReqwestArc "404")
  fetchBuild := fun b =>
    if b = 1 then .ok ⟨"build", 1, 1⟩ else .error (.failedReqwestArc "404")

/-- The end-to-end example server where fetching build 1 fails with a
transport error. -/
def envErr : Env where
  fetchProjects := .ok [⟨"myproj", ["trunk"]⟩]
  fetchEvalList := fun j =>
    if j = ⟨"myproj", "trunk"⟩ then .ok ⟨[⟨[1]⟩]⟩
    else .error (.failedReqwestArc "404")
  fetchBuild := fun _ => .error (.failedReqwestArc "connection refused")

/-- A server whose evaluation history is `[⟨[1]⟩, ⟨[2]⟩]`: build 1 has job
`other` (not matching `build`), build 2 is a settled passing `build`. -/
def envMismatch : Env where
  fetchProjects := .ok [⟨"myproj", ["trunk"]⟩]
  fetchEvalList := fun j =>
    if j = ⟨"myproj", "trunk"⟩ then .ok ⟨[⟨[1]⟩, ⟨[2]⟩]⟩
    else .error (.failedReqwestArc "404")
  fetchBuild := fun b =>
    if b = 1 then .ok ⟨"other", 1, 0⟩
    else if b = 2 then .ok ⟨"build", 1, 0⟩
    else .error (.failedReqwestArc "404")

/-- A server whose evaluation history is `[⟨[1]⟩, ⟨[2]⟩]`: build 1 is a
queued `build` (`finished = 0`), build 2 a settled failed `build`
(`buildstatus = 1`). -/
def envQueued : Env where
  fetchProjects := .ok [⟨"myproj", ["trunk"]⟩]
  fetchEvalList := fun j =>
    if j = ⟨"myproj", "trunk"⟩ then .ok ⟨[⟨[1]⟩, ⟨[2]⟩]⟩
    else .error (.failedReqwestArc "404")
  fetchBuild := fun b =>
    if b = 1 then .ok ⟨"build", 0, 0⟩
    else if b = 2 then .ok ⟨"build", 1, 1⟩
    else .error (.failedReqwestArc "404")

/-- A server whose single evaluation's only matching build stays queued
(`finished: 0`) forever. -/
def envAllQueued : Env where
  fetchProjects := .ok [⟨"myproj", ["trunk"]⟩]
  fetchEvalList := fun j =>
    if j = ⟨"myproj", "trunk"⟩ then .ok ⟨[⟨[1]⟩]⟩
    else .error (.failedReqwestArc "404")
  fetchBuild := fun b =>
    if b = 1 then .ok ⟨"build", 0, 0⟩ else .error (.failedReqwestArc "404")

/-- A server with two settled passing evaluations `[⟨[1]⟩, ⟨[2]⟩]`. -/
def envTwoPassing : Env where
  fetchProjects := .ok [⟨"myproj", ["trunk"]⟩]
  fetchEvalList := fun j =>
    if j = ⟨"myproj", "trunk"⟩ then .ok ⟨[⟨[1]⟩, ⟨[2]⟩]⟩
    else .error (.failedReqwestArc "404")
  fetchBuild := fun b =>
    if b = 1 then .ok ⟨"build", 1, 0⟩
    else if b = 2 then .ok ⟨"build", 1, 0⟩
    else .error (.failedReqwestArc "404")

/-- A server whose project list is empty. -/
def envNoProjects : Env where
  fetchProjects := .ok []
  fetchEvalList := fun _ => .error (.failedReqwestArc "404")
  fetchBuild := fun _ => .error (.failedReqwestArc "404")

/-! ### Helper lemmas -/

/-- Unfolding `check_jobset_evaluation` when the build fan-out succeeds. -/
theorem check_jobset_evaluation_ok (env : Env) (m : String → Bool)
    (e : JobsetEvaluation) (statuses : List Build)
    (h : collect_builds env e.builds = .ok statuses) :
    check_jobset_evaluation env m e =
      (if (matched m statuses).isEmpty then .ok (false, true)
       else .ok ((matched m statuses).any fun x => x.finished != 1,
                 (matched m statuses).any fun x => x.buildstatus != 0)) := by
  simp [check_jobset_evaluation, h]

/-- Unfolding `check_jobset_evaluation` when the build fan-out fails. -/
theorem check_jobset_evaluation_err (env : Env) (m : String → Bool)
    (e : JobsetEvaluation) (err : EndpointError)
    (h : collect_builds env e.builds = .error err) :
    check_jobset_evaluation env m e = .error err := by
  simp [check_jobset_evaluation, h]

/-- A queued head evaluation is skipped by `check_list_passing`. -/
theorem check_list_passing_cons_queued (env : Env) (m : String → Bool)
    (e : JobsetEvaluation) (rest : List JobsetEvaluation) (f : Bool)
    (h : check_jobset_evaluation env m e = .ok (true, f)) :
    check_list_passing env m (e :: rest) = check_list_passing env m rest := by
  simp [check_list_passing, h]

/-- A settled head evaluation decides `check_list_passing`. -/
theorem check_list_passing_cons_settled (env : Env) (m : String → Bool)
    (e : JobsetEvaluation) (rest : List JobsetEvaluation) (f : Bool)
    (h : check_jobset_evaluation env m e = .ok (false, f)) :
    check_list_passing env m (e :: rest) = .ok (!f) := by
  simp [check_list_passing, h]

/-- A failing head evaluation aborts `check_list_passing`. -/
theorem check_list_passing_cons_err (env : Env) (m : String → Bool)
    (e : JobsetEvaluation) (rest : List JobsetEvaluation) (err : EndpointError)
    (h : check_jobset_evaluation env m e = .error err) :
    check_list_passing env m (e :: rest) = .error err := by
  simp [check_list_passing, h]

/-- Every evaluation history in a successful `collect_passing` run
contributes its own `check_list_passing` verdict to the collected list. -/
theorem collect_passing_mem (env : Env) (m : String → Bool)
    (lists : List JobsetEvalList) (passing : List Bool)
    (h : collect_passing env m lists = .ok passing) :
    ∀ l ∈ lists, ∃ b, check_list_passing env m l.evals = .ok b ∧ b ∈ passing := by
  induction lists generalizing passing with
  | nil => intro l hl; cases hl
  | cons hd tl ih =>
    intro l hl
    rw [collect_passing] at h
    cases hhd : check_list_passing env m hd.evals with
    | error err => rw [hhd] at h; cases h
    | ok b =>
      rw [hhd] at h
      cases htl : collect_passing env m tl with
      | error err => rw [htl] at h; cases h
      | ok bs =>
        rw [htl] at h
        cases h
        rcases List.mem_cons.mp hl with rfl | hl
        · exact ⟨b, hhd, List.mem_cons_self _ _⟩
        · obtain ⟨b', hb', hmem⟩ := ih bs htl l hl
          exact ⟨b', hb', List.mem_cons_of_mem _ hmem⟩

/-- A successful `collect_passing` run is all-true exactly when every
evaluation history in the input resolved to `Ok(true)`. -/
theorem collect_passing_all_iff (env : Env) (m : String → Bool)
    (lists : List JobsetEvalList) (passing : List Bool)
    (h : collect_passing env m lists = .ok passing) :
    (passing.all fun b => b) = true ↔
      ∀ l ∈ lists, check_list_passing env m l.evals = .ok true := by
  induction lists generalizing passing with
  | nil =>
    rw [collect_passing] at h
    cases h
    simp
  | cons hd tl ih =>
    rw [collect_passing] at h
    cases hhd : check_list_passing env m hd.evals with
    | error err => rw [hhd] at h; cases h
    | ok b =>
      rw [hhd] at h
      cases htl : collect_passing env m tl with
      | error err => rw [htl] at h; cases h
      | ok bs =>
        rw [htl] at h
        cases h
        simp only [List.all_cons, Bool.and_eq_true, ih bs htl, List.mem_cons]
        constructor
        · rintro ⟨hb, hrest⟩ l (rfl | hl)
          · rw [hhd, hb]
          · exact hrest l hl
        · intro hall
          refine ⟨?_, fun l hl => hall l (Or.inr hl)⟩
          have := hall hd (Or.inl rfl)
          rw [hhd] at this
          cases this
          rfl

/-- Unfolding `endpoint` when all three fetch/aggregation stages succeed:
the response is decided by `passing.all`. -/
theorem endpoint_eq (env : Env) (gs1 gs2 : String) (jm m : String → Bool)
    (projects : List Project) (lists : List JobsetEvalList)
    (passing : List Bool)
    (h1 : env.fetchProjects = .ok projects)
    (h2 : collect_eval_lists env (derived_jobsets projects jm) = .ok lists)
    (h3 : collect_passing env m lists = .ok passing) :
    endpoint env gs1 gs2 jm m =
      (if passing.all fun b => b then
        .ok { schema_version := 1, label := gs1 ++ ":" ++ gs2,
              message := "passing", is_error := false }
      else
        .ok { schema_version := 1, label := gs1 ++ ":" ++ gs2,
              message := "one or more jobs failing", is_error := true }) := by
  rw [endpoint, h1]
  simp only [h2, h3]

/-! ### The claims -/

/-- C1: if the current evaluation's fetched builds contain no build whose
job name matches the job matcher, the Resolver resolves the jobset to
Failing (`Ok(false)`) at once, whatever the older (later-index) evaluations
hold — the verdict is the same for every tail `rest`, so no older evaluation
is examined. -/
theorem no_matching_build_fails_immediately (env : Env) (m : String → Bool)
    (e : JobsetEvaluation) (statuses : List Build)
    (rest : List JobsetEvaluation)
    (hfetch : collect_builds env e.builds = .ok statuses)
    (hnone : matched m statuses = []) :
    check_list_passing env m (e :: rest) = .ok false := by
  have h := check_jobset_evaluation_ok env m e statuses hfetch
  rw [hnone] at h
  simp only [List.isEmpty_nil, if_true] at h
  have := check_list_passing_cons_settled env m e rest true h
  simpa using this

/-- C1 witness: history `[⟨[1]⟩, ⟨[2]⟩]` on [[envMismatch]]; evaluation 0's
only build has job `other`, which `build` does not match, so the verdict is
Failing even though the older evaluation 1 is a settled passing `build`. -/
theorem no_matching_build_fails_immediately_witness :
    check_list_passing envMismatch (globMatchStr "build") [⟨[1]⟩, ⟨[2]⟩]
      = .ok false :=
  no_matching_build_fails_immediately envMismatch (globMatchStr "build")
    ⟨[1]⟩ [⟨"other", 1, 0⟩] [⟨[2]⟩] (by decide) (by decide)

/-- C2: (1) an evaluation with at least one matched build, some of which is
unfinished (`finished != 1`), is skipped in favour of the next older
evaluation; (2) an evaluation whose matched builds are nonempty and all
finished decides the verdict: Passing iff no matched build has nonzero
`buildstatus`; (3) after any prefix of queued evaluations, the first
evaluation whose matched builds are all finished decides the verdict;
(4) in particular, with evaluation 0 queued and evaluation 1 settled, the
verdict is evaluation 1's settled verdict. -/
theorem queued_skipped_settled_decides (env : Env) (m : String → Bool) :
    (∀ e rest statuses, collect_builds env e.builds = .ok statuses →
      matched m statuses ≠ [] →
      ((matched m statuses).any fun x => x.finished != 1) = true →
      check_list_passing env m (e :: rest) = check_list_passing env m rest)
    ∧ (∀ e rest statuses, collect_builds env e.builds = .ok statuses →
      matched m statuses ≠ [] →
      ((matched m statuses).any fun x => x.finished != 1) = false →
      check_list_passing env m (e :: rest) =
        .ok (!((matched m statuses).any fun x => x.buildstatus != 0)))
    ∧ (∀ (pre : List JobsetEvaluation) e rest s,
      (∀ e' ∈ pre, ∃ s', collect_builds env e'.builds = .ok s' ∧
        matched m s' ≠ [] ∧
        ((matched m s').any fun x => x.finished != 1) = true) →
      collect_builds env e.builds = .ok s →
      matched m s ≠ [] →
      ((matched m s).any fun x => x.finished != 1) = false →
      check_list_passing env m (pre ++ e :: rest) =
        .ok (!((matched m s).any fun x => x.buildstatus != 0)))
    ∧ (∀ e0 e1 rest s0 s1, collect_builds env e0.builds = .ok s0 →
      matched m s0 ≠ [] →
      ((matched m s0).any fun x => x.finished != 1) = true →
      collect_builds env e1.builds = .ok s1 →
      matched m s1 ≠ [] →
      ((matched m s1).any fun x => x.finished != 1) = false →
      check_list_passing env m (e0 :: e1 :: rest) =
        .ok (!((matched m s1).any fun x => x.buildstatus != 0))) := by
  have skip : ∀ e rest statuses, collect_builds env e.builds = .ok statuses →
      matched m statuses ≠ [] →
      ((matched m statuses).any fun x => x.finished != 1) = true →
      check_list_passing env m (e :: rest) = check_list_passing env m rest := by
    intro e rest statuses hfetch hne hq
    have h := check_jobset_evaluation_ok env m e statuses hfetch
    rw [if_neg (by simpa [List.isEmpty_iff] using hne), hq] at h
    exact check_list_passing_cons_queued env m e rest _ h
  have settle : ∀ e rest statuses, collect_builds env e.builds = .ok statuses →
      matched m statuses ≠ [] →
      ((matched m statuses).any fun x => x.finished != 1) = false →
      check_list_passing env m (e :: rest) =
        .ok (!((matched m statuses).any fun x => x.buildstatus != 0)) := by
    intro e rest statuses hfetch hne hq
    have h := check_jobset_evaluation_ok env m e statuses hfetch
    rw [if_neg (by simpa [List.isEmpty_iff] using hne), hq] at h
    exact check_list_passing_cons_settled env m e rest _ h
  have prefixed : ∀ (pre : List JobsetEvaluation) e rest s,
      (∀ e' ∈ pre, ∃ s', collect_builds env e'.builds = .ok s' ∧
        matched m s' ≠ [] ∧
        ((matched m s').any fun x => x.finished != 1) = true) →
      collect_builds env e.builds = .ok s →
      matched m s ≠ [] →
      ((matched m s).any fun x => x.finished != 1) = false →
      check_list_passing env m (pre ++ e :: rest) =
        .ok (!((matched m s).any fun x => x.buildstatus != 0)) := by
    intro pre e rest s hpre hf hne hq
    induction pre with
    | nil => exact settle e rest s hf hne hq
    | cons p pre' ih =>
      obtain ⟨s', hf', hne', hq'⟩ := hpre p (List.mem_cons_self _ _)
      rw [List.cons_append, skip p (pre' ++ e :: rest) s' hf' hne' hq']
      exact ih fun e' he' => hpre e' (List.mem_cons_of_mem _ he')
  refine ⟨skip, settle, prefixed, ?_⟩
  intro e0 e1 rest s0 s1 hf0 hne0 hq0 hf1 hne1 hq1
  rw [skip e0 (e1 :: rest) s0 hf0 hne0 hq0]
  exact settle e1 rest s1 hf1 hne1 hq1

/-- C2 witness: on [[envQueued]], evaluation 0's `build` is queued and
evaluation 1's `build` is settled with `buildstatus = 1`, so the verdict is
evaluation 1's settled verdict, Failing. -/
theorem queued_skipped_settled_decides_witness :
    check_list_passing envQueued (globMatchStr "build") [⟨[1]⟩, ⟨[2]⟩]
      = .ok false := by
  have h := (queued_skipped_settled_decides envQueued (globMatchStr "build")).2.2.2
    ⟨[1]⟩ ⟨[2]⟩ [] [⟨"build", 0, 0⟩] [⟨"build", 1, 1⟩]
    (by decide) (by decide) (by decide) (by decide) (by decide) (by decide)
  simpa using h

/-- C3: when the history is empty, or every evaluation has a nonempty
matched-build set containing some unfinished build (the scan never
settles), the Resolver returns its exhausted-loop value `Ok(false)`
(Undetermined collapsed to not-passing), and any endpoint run whose
fetched histories include such a history answers
"one or more jobs failing" with `is_error = true`. -/
theorem all_queued_or_empty_not_passing (env : Env) (jm m : String → Bool)
    (gs1 gs2 : String) (evals : List JobsetEvaluation)
    (h : ∀ e ∈ evals, ∃ statuses,
      collect_builds env e.builds = .ok statuses ∧
      matched m statuses ≠ [] ∧
      ((matched m statuses).any fun x => x.finished != 1) = true) :
    check_list_passing env m evals = .ok false
    ∧ (∀ (projects : List Project) (lists : List JobsetEvalList)
        (passing : List Bool),
      env.fetchProjects = .ok projects →
      collect_eval_lists env (derived_jobsets projects jm) = .ok lists →
      collect_passing env m lists = .ok passing →
      JobsetEvalList.mk evals ∈ lists →
      endpoint env gs1 gs2 jm m =
        .ok { schema_version := 1, label := gs1 ++ ":" ++ gs2,
              message := "one or more jobs failing", is_error := true }) := by
  have hres : check_list_passing env m evals = .ok false := by
    induction evals with
    | nil => rfl
    | cons e tl ih =>
      obtain ⟨s, hf, hne, hq⟩ := h e (List.mem_cons_self _ _)
      have he := check_jobset_evaluation_ok env m e s hf
      rw [if_neg (by simpa [List.isEmpty_iff] using hne), hq] at he
      rw [check_list_passing_cons_queued env m e tl _ he]
      exact ih fun e' he' => h e' (List.mem_cons_of_mem _ he')
  refine ⟨hres, ?_⟩
  intro projects lists passing h1 h2 h3 hmem
  obtain ⟨b, hb, hbmem⟩ := collect_passing_mem env m lists passing h3 _ hmem
  have hb0 : b = false := by
    rw [hres] at hb
    exact (Except.ok.inj hb).symm
  subst hb0
  have hA : (passing.all fun b => b) = false := by
    cases hA : passing.all fun b => b with
    | false => rfl
    | true =>
      rw [List.all_eq_true] at hA
      exact absurd (hA false hbmem) (by decide)
  rw [endpoint_eq env gs1 gs2 jm m projects lists passing h1 h2 h3, hA]
  rfl

/-- C3 witness: on [[envAllQueued]] the single evaluation's only matching
build has `finished = 0`, so the Resolver is exhausted and the endpoint
reports a failing badge. -/
theorem all_queued_or_empty_not_passing_witness :
    check_list_passing envAllQueued (globMatchStr "build") [⟨[1]⟩] = .ok false
    ∧ endpoint envAllQueued "myproj:*" "build" (globMatchStr "myproj:*")
        (globMatchStr "build")
      = .ok { schema_version := 1, label := "myproj:*:build",
              message := "one or more jobs failing", is_error := true } := by
  have h := all_queued_or_empty_not_passing envAllQueued
    (globMatchStr "myproj:*") (globMatchStr "build") "myproj:*" "build" [⟨[1]⟩]
    (by
      intro e he
      simp only [List.mem_singleton] at he
      subst he
      exact ⟨[⟨"build", 0, 0⟩], by decide, by decide, by decide⟩)
  refine ⟨h.1, ?_⟩
  have h2 := h.2 [⟨"myproj", ["trunk"]⟩] [⟨[⟨[1]⟩]⟩] [false]
    (by decide) (by decide) (by decide) (by decide)
  simpa using h2

/-- C4 counterexample: on [[envMismatch]] with job glob `build`, the
one-evaluation history `[⟨[1]⟩]` fetches only build 1 (`job = "other"`),
whose matched-build set is empty — so every matched build vacuously has
`finished = 1` and `buildstatus = 0` — yet the Resolver answers `Ok(false)`
(Failing), not Passing. -/
theorem first_eval_all_passing_counterexample :
    collect_builds envMismatch [1] = .ok [⟨"other", 1, 0⟩]
    ∧ (∀ b ∈ matched (globMatchStr "build") [⟨"other", 1, 0⟩],
        b.finished = 1 ∧ b.buildstatus = 0)
    ∧ check_list_passing envMismatch (globMatchStr "build") [⟨[1]⟩]
        ≠ .ok true := by
  decide

/-- C4 as amended: when additionally the first evaluation's matched-build
set is nonempty, a history in which every evaluation's matched builds all
have `finished = 1` and `buildstatus = 0` resolves to Passing, and the
verdict is decided at the first evaluation — it is the same for every tail
`rest`. -/
theorem first_eval_all_passing_decides (env : Env) (m : String → Bool)
    (e0 : JobsetEvaluation) (rest : List JobsetEvaluation) (s0 : List Build)
    (hfetch : collect_builds env e0.builds = .ok s0)
    (hne : matched m s0 ≠ [])
    (hall : ∀ e ∈ e0 :: rest, ∀ s, collect_builds env e.builds = .ok s →
      ∀ b ∈ matched m s, b.finished = 1 ∧ b.buildstatus = 0) :
    check_list_passing env m (e0 :: rest) = .ok true := by
  have h0 := hall e0 (List.mem_cons_self _ _) s0 hfetch
  have hq : ((matched m s0).any fun x => x.finished != 1) = false := by
    rw [List.any_eq_false]
    intro x hx
    simp [(h0 x hx).1]
  have hf : ((matched m s0).any fun x => x.buildstatus != 0) = false := by
    rw [List.any_eq_false]
    intro x hx
    simp [(h0 x hx).2]
  have h := check_jobset_evaluation_ok env m e0 s0 hfetch
  rw [if_neg (by simpa [List.isEmpty_iff] using hne), hq, hf] at h
  have := check_list_passing_cons_settled env m e0 rest false h
  simpa using this

/-- C4 witness: on [[envTwoPassing]] both evaluations' matched builds are
settled and passing, and the nonempty first evaluation decides Passing. -/
theorem first_eval_all_passing_decides_witness :
    check_list_passing envTwoPassing (globMatchStr "build") [⟨[1]⟩, ⟨[2]⟩]
      = .ok true := by
  refine first_eval_all_passing_decides envTwoPassing (globMatchStr "build")
    ⟨[1]⟩ [⟨[2]⟩] [⟨"build", 1, 0⟩] (by decide) (by decide) ?_
  intro e he s hs
  simp only [List.mem_cons, List.not_mem_nil, or_false] at he
  rcases he with rfl | rfl
  · have hcb : collect_builds envTwoPassing (JobsetEvaluation.mk [1]).builds
        = .ok [⟨"build", 1, 0⟩] := by decide
    rw [hcb] at hs
    cases hs
    decide
  · have hcb : collect_builds envTwoPassing (JobsetEvaluation.mk [2]).builds
        = .ok [⟨"build", 1, 0⟩] := by decide
    rw [hcb] at hs
    cases hs
    decide

/-- C5: (1) on any request whose three fetch stages succeed, the endpoint
answers the passing response — label `"<jobset-glob>:<jobs-glob>"`, message
`"passing"`, `is_error = false` — exactly when every matched jobset's
evaluation history resolved to Passing; (2) the spec's end-to-end example
(project `myproj`, jobset `trunk`, one evaluation, build 1 =
`{job: "build", finished: 1, buildstatus: 0}`) yields label
`"myproj:*:build"`, message `"passing"`, `is_error = false`. -/
theorem overall_passing_iff_all_jobsets_passing :
    (∀ (env : Env) (gs1 gs2 : String) (jm m : String → Bool)
        (projects : List Project) (lists : List JobsetEvalList)
        (passing : List Bool),
      env.fetchProjects = .ok projects →
      collect_eval_lists env (derived_jobsets projects jm) = .ok lists →
      collect_passing env m lists = .ok passing →
      (endpoint env gs1 gs2 jm m =
          .ok { schema_version := 1, label := gs1 ++ ":" ++ gs2,
                message := "passing", is_error := false }
        ↔ ∀ l ∈ lists, check_list_passing env m l.evals = .ok true))
    ∧ endpoint envE2E "myproj:*" "build" (globMatchStr "myproj:*")
        (globMatchStr "build")
      = .ok { schema_version := 1, label := "myproj:*:build",
              message := "passing", is_error := false } := by
  constructor
  · intro env gs1 gs2 jm m projects lists passing h1 h2 h3
    rw [endpoint_eq env gs1 gs2 jm m projects lists passing h1 h2 h3,
      ← collect_passing_all_iff env m lists passing h3]
    constructor
    · intro h
      cases hA : passing.all fun b => b with
      | true => rfl
      | false =>
        rw [hA, if_neg (by simp)] at h
        have hmsg : ("one or more jobs failing" : String) = "passing" :=
          congrArg EndpointResponse.message (Except.ok.inj h)
        exact absurd hmsg (by decide)
    · intro hA
      rw [hA, if_pos rfl]
  · decide

/-- C5 witness: part (1) applied to the end-to-end example environment;
its single history resolves to Passing, so the response is the passing
one. -/
theorem overall_passing_iff_all_jobsets_passing_witness :
    endpoint envE2E "myproj:*" "build" (globMatchStr "myproj:*")
      (globMatchStr "build")
      = .ok { schema_version := 1, label := "myproj:*" ++ ":" ++ "build",
              message := "passing", is_error := false } :=
  (overall_passing_iff_all_jobsets_passing.1 envE2E "myproj:*" "build"
      (globMatchStr "myproj:*") (globMatchStr "build")
      [⟨"myproj", ["trunk"]⟩] [⟨[⟨[1]⟩]⟩] [true]
      (by decide) (by decide) (by decide)).mpr (by decide)

/-- C6: on any request whose three fetch stages succeed but where some
matched jobset's history resolved to not-Passing, the endpoint answers
message `"one or more jobs failing"` with `is_error = true`, still under
the label `"<jobset-glob>:<jobs-glob>"`. -/
theorem some_jobset_not_passing_error_response (env : Env)
    (gs1 gs2 : String) (jm m : String → Bool)
    (projects : List Project) (lists : List JobsetEvalList)
    (passing : List Bool) (l0 : JobsetEvalList)
    (h1 : env.fetchProjects = .ok projects)
    (h2 : collect_eval_lists env (derived_jobsets projects jm) = .ok lists)
    (h3 : collect_passing env m lists = .ok passing)
    (hl0 : l0 ∈ lists)
    (hfail : check_list_passing env m l0.evals = .ok false) :
    endpoint env gs1 gs2 jm m =
      .ok { schema_version := 1, label := gs1 ++ ":" ++ gs2,
            message := "one or more jobs failing", is_error := true } := by
  obtain ⟨b, hb, hbmem⟩ := collect_passing_mem env m lists passing h3 l0 hl0
  have hb0 : b = false := by
    rw [hfail] at hb
    exact (Except.ok.inj hb).symm
  subst hb0
  have hA : (passing.all fun b => b) = false := by
    cases hA : passing.all fun b => b with
    | false => rfl
    | true =>
      rw [List.all_eq_true] at hA
      exact absurd (hA false hbmem) (by decide)
  rw [endpoint_eq env gs1 gs2 jm m projects lists passing h1 h2 h3, hA]
  rfl

/-- C6 witness: the end-to-end example with `buildstatus: 1` yields
message `"one or more jobs failing"` and `is_error = true`. -/
theorem some_jobset_not_passing_error_response_witness :
    endpoint envE2EFail "myproj:*" "build" (globMatchStr "myproj:*")
      (globMatchStr "build")
      = .ok { schema_version := 1, label := "myproj:*" ++ ":" ++ "build",
              message := "one or more jobs failing", is_error := true } :=
  some_jobset_not_passing_error_response envE2EFail "myproj:*" "build"
    (globMatchStr "myproj:*") (globMatchStr "build")
    [⟨"myproj", ["trunk"]⟩] [⟨[⟨[1]⟩]⟩] [false] ⟨[⟨[1]⟩]⟩
    (by decide) (by decide) (by decide) (by decide) (by decide)

/-- C7: (1) a failed build fetch in the evaluation under examination aborts
`check_list_passing` with that error; (2) a failed resolver stage aborts
`endpoint` with that error — the response is `Err`, never a partial-success
verdict. -/
theorem fetch_failure_propagates :
    (∀ (env : Env) (m : String → Bool) (e : JobsetEvaluation)
        (rest : List JobsetEvaluation) (err : EndpointError),
      collect_builds env e.builds = .error err →
      check_list_passing env m (e :: rest) = .error err)
    ∧ (∀ (env : Env) (gs1 gs2 : String) (jm m : String → Bool)
        (projects : List Project) (lists : List JobsetEvalList)
        (err : EndpointError),
      env.fetchProjects = .ok projects →
      collect_eval_lists env (derived_jobsets projects jm) = .ok lists →
      collect_passing env m lists = .error err →
      endpoint env gs1 gs2 jm m = .error err) := by
  constructor
  · intro env m e rest err h
    exact check_list_passing_cons_err env m e rest err
      (check_jobset_evaluation_err env m e err h)
  · intro env gs1 gs2 jm m projects lists err h1 h2 h3
    rw [endpoint, h1]
    simp only [h2, h3]

/-- C7 witness: on [[envErr]] fetching build 1 fails with a transport
error, the Resolver aborts with it, and the whole request errors. -/
theorem fetch_failure_propagates_witness :
    check_list_passing envErr (globMatchStr "build") [⟨[1]⟩]
      = .error (.failedReqwestArc "connection refused")
    ∧ endpoint envErr "myproj:*" "build" (globMatchStr "myproj:*")
        (globMatchStr "build")
      = .error (.failedReqwestArc "connection refused") :=
  ⟨fetch_failure_propagates.1 envErr (globMatchStr "build") ⟨[1]⟩ []
      (.failedReqwestArc "connection refused") (by decide),
    fetch_failure_propagates.2 envErr "myproj:*" "build"
      (globMatchStr "myproj:*") (globMatchStr "build")
      [⟨"myproj", ["trunk"]⟩] [⟨[⟨[1]⟩]⟩]
      (.failedReqwestArc "connection refused")
      (by decide) (by decide) (by decide)⟩

/-- C10: when no `"project:jobset"` identity survives the jobset glob —
in particular when the fetched project list is empty — the endpoint
vacuously answers the passing response: message `"passing"`,
`is_error = false`. -/
theorem no_matching_jobset_vacuously_passing (env : Env)
    (gs1 gs2 : String) (jm m : String → Bool) (projects : List Project)
    (h1 : env.fetchProjects = .ok projects)
    (h2 : derived_jobsets projects jm = []) :
    endpoint env gs1 gs2 jm m =
      .ok { schema_version := 1, label := gs1 ++ ":" ++ gs2,
            message := "passing", is_error := false } := by
  have h2' : collect_eval_lists env (derived_jobsets projects jm) = .ok [] := by
    rw [h2]
    rfl
  have h3 : collect_passing env m ([] : List JobsetEvalList) = .ok [] := rfl
  rw [endpoint_eq env gs1 gs2 jm m projects [] [] h1 h2' h3]
  rfl

/-- C10 witness: on [[envNoProjects]] the project list is empty, no jobset
matches, and the badge is vacuously passing. -/
theorem no_matching_jobset_vacuously_passing_witness :
    endpoint envNoProjects "myproj:*" "build" (globMatchStr "myproj:*")
      (globMatchStr "build")
      = .ok { schema_version := 1, label := "myproj:*" ++ ":" ++ "build",
              message := "passing", is_error := false } :=
  no_matching_jobset_vacuously_passing envNoProjects "myproj:*" "build"
    (globMatchStr "myproj:*") (globMatchStr "build") []
    (by decide) (by decide)

end HydraShields
